import Mathlib

/-
Verification of the abstract-factory example in
src/creational/abstract_factory.py.

The module defines two parallel class hierarchies:
  ShoesCreator (abstract, with abstract factory_method and concrete
  some_operation) with concrete subclasses SneakersCreator and
  CrocksCreator, and
  Shoes (abstract, with abstract operation) with concrete subclasses
  Sneakers and Crocks,
plus a client routine client_side_method and a main block that prints a
fixed transcript.

Embedding choices:
  A Python instance is a tag (its concrete class) together with its
  instance dictionary, modelled as a list of name/value pairs.  Methods
  are functions from the receiver to a result paired with the receiver
  after the call, so that absence of mutation is a provable statement
  rather than an assumption.  Standard output is a string; print s
  appends s and a newline.  The abstract-base mechanism (abc.ABC with
  abstractmethod) is modelled by a class record carrying the set of
  still-abstract method names: class definition always succeeds and
  computes that set, instantiation raises TypeError exactly when the set
  is nonempty, which is the documented CPython semantics of ABCMeta.
-/

namespace AbstractFactory

/-- Concrete Shoes subclasses of the module: Sneakers and Crocks. -/
inductive ShoesTag where
  | sneakers
  | crocks
deriving DecidableEq

/-- A runtime instance of a concrete Shoes subclass: its class tag and
its instance dictionary. -/
structure ShoesObj where
  tag : ShoesTag
  attrs : List (String × String)
deriving DecidableEq

/-- Concrete ShoesCreator subclasses of the module. -/
inductive CreatorTag where
  | sneakersCreator
  | crocksCreator
deriving DecidableEq

/-- A runtime instance of a concrete ShoesCreator subclass. -/
structure CreatorObj where
  tag : CreatorTag
  attrs : List (String × String)
deriving DecidableEq

/-- Sneakers(): the class has no init of its own, so the instance
dictionary starts empty. -/
def Sneakers.new : ShoesObj := ⟨ShoesTag.sneakers, []⟩

/-- Crocks(): fresh instance with an empty instance dictionary. -/
def Crocks.new : ShoesObj := ⟨ShoesTag.crocks, []⟩

/-- SneakersCreator(): fresh instance with an empty instance dictionary. -/
def SneakersCreator.new : CreatorObj := ⟨CreatorTag.sneakersCreator, []⟩

/-- CrocksCreator(): fresh instance with an empty instance dictionary. -/
def CrocksCreator.new : CreatorObj := ⟨CreatorTag.crocksCreator, []⟩

/-- Dynamic dispatch of operation over the concrete Shoes subclasses.
Sneakers.operation returns the literal string on line 90 of the source,
Crocks.operation the literal on line 95; neither body reads or writes an
attribute, so the receiver is returned unchanged. -/
def ShoesObj.operation (self : ShoesObj) : String × ShoesObj :=
  match self.tag with
  | ShoesTag.sneakers => ("Sneakers shoes!", self)
  | ShoesTag.crocks => ("Crocks shoes!", self)

/-- Dynamic dispatch of factory_method over the concrete creator
subclasses: SneakersCreator.factory_method returns Sneakers() (line 62),
CrocksCreator.factory_method returns Crocks() (line 72).  Neither body
touches the receiver, so it is returned unchanged. -/
def CreatorObj.factory_method (self : CreatorObj) : ShoesObj × CreatorObj :=
  match self.tag with
  | CreatorTag.sneakersCreator => (Sneakers.new, self)
  | CreatorTag.crocksCreator => (Crocks.new, self)

/-- ShoesCreator.some_operation (lines 35 to 49): calls factory_method on
the receiver to obtain a product, then returns the formatted string built
from the prefix literal and the result of operation on that product. -/
def CreatorObj.some_operation (self : CreatorObj) : String × CreatorObj :=
  let fm := self.factory_method
  let shoes := fm.1
  let self1 := fm.2
  let op := shoes.operation
  let result := "ShoesCreator works with: " ++ op.1
  (result, self1)

/-- Python print with one string argument: appends the argument and a
line break to standard output. -/
def pyPrint (s : String) (out : String) : String := out ++ s ++ "\n"

/-- client_side_method (lines 98 to 104): prints the result of
some_operation on the given creator and returns None, modelled as Unit,
together with standard output after the call. -/
def client_side_method (creator : CreatorObj) (out : String) : Unit × String :=
  ((), pyPrint (creator.some_operation).1 out)

/-- Standard output produced by the main block (lines 107 to 112), run
from an empty standard output. -/
def mainStdout : String :=
  let out1 := pyPrint "SneakersCreator:" ""
  let out2 := (client_side_method SneakersCreator.new out1).2
  let out3 := pyPrint "" out2
  let out4 := pyPrint "CrocksCreator:" out3
  (client_side_method CrocksCreator.new out4).2

/-- Splits a character stream at line breaks; a trailing fragment not
closed by a line break is dropped, so applied to output built only from
print calls this returns exactly one entry per print call. -/
def linesAux : List Char → List Char → List String
  | [], _ => []
  | c :: cs, acc =>
    if c = '\n' then String.mk acc.reverse :: linesAux cs []
    else linesAux cs (c :: acc)

/-- Lines of a standard-output string. -/
def stdoutLines (out : String) : List String := linesAux out.data []

/-- Repeated calls of some_operation on one and the same creator
instance: the list of returned strings and the instance after the calls. -/
def repeatCalls : Nat → CreatorObj → List String × CreatorObj
  | 0, self => ([], self)
  | n + 1, self =>
    let r := self.some_operation
    let rest := repeatCalls n r.2
    (r.1 :: rest.1, rest.2)

/-- A class record as ABCMeta leaves it: its name and the names of
abstract methods not yet given a concrete implementation. -/
structure PyClass where
  name : String
  abstractMethods : List String
deriving DecidableEq

/-- Builds the class record for a class definition from its base class,
the method names declared abstract in its body, and the method names
given a concrete implementation in its body: the still-abstract set is
the declared-abstract names plus the inherited ones not overridden. -/
def mkClass (name : String) (base : PyClass)
    (declaredAbstract implemented : List String) : PyClass :=
  ⟨name, declaredAbstract ++
    base.abstractMethods.filter
      (fun m => !(implemented.contains m) && !(declaredAbstract.contains m))⟩

/-- Executing a class statement under ABCMeta: it always succeeds,
whether or not abstract methods remain unimplemented. -/
def defineClass (name : String) (base : PyClass)
    (declaredAbstract implemented : List String) : Except String PyClass :=
  Except.ok (mkClass name base declaredAbstract implemented)

/-- A constructed instance, identified by its class name. -/
structure PyInstance where
  cls : String
deriving DecidableEq

/-- Calling a class to construct an instance: ABCMeta raises TypeError
exactly when the class still has abstract methods. -/
def instantiate (c : PyClass) : Except String PyInstance :=
  if c.abstractMethods.isEmpty then Except.ok ⟨c.name⟩
  else Except.error "TypeError"

/-- The implicit root base class. -/
def objectClass : PyClass := ⟨"object", []⟩

/-- class ShoesCreator(ABC), lines 22 to 49: declares factory_method
abstract and implements some_operation. -/
def shoesCreatorClass : PyClass :=
  mkClass "ShoesCreator" objectClass ["factory_method"] ["some_operation"]

/-- class SneakersCreator(ShoesCreator), lines 55 to 62: implements
factory_method. -/
def sneakersCreatorClass : PyClass :=
  mkClass "SneakersCreator" shoesCreatorClass [] ["factory_method"]

/-- class CrocksCreator(ShoesCreator), lines 65 to 72: implements
factory_method. -/
def crocksCreatorClass : PyClass :=
  mkClass "CrocksCreator" shoesCreatorClass [] ["factory_method"]

/-- class Shoes(ABC), lines 75 to 82: declares operation abstract. -/
def shoesClass : PyClass := mkClass "Shoes" objectClass ["operation"] []

/-- class Sneakers(Shoes), lines 88 to 90: implements operation. -/
def sneakersClass : PyClass := mkClass "Sneakers" shoesClass [] ["operation"]

/-- class Crocks(Shoes), lines 93 to 95: implements operation. -/
def crocksClass : PyClass := mkClass "Crocks" shoesClass [] ["operation"]

/-- Every class the module defines. -/
def moduleClasses : List PyClass :=
  [shoesCreatorClass, sneakersCreatorClass, crocksCreatorClass,
   shoesClass, sneakersClass, crocksClass]

/-- A hypothetical concrete creator subclass whose body implements
nothing, used to locate where the abstract-base mechanism rejects it. -/
def badCreatorClass : PyClass := mkClass "BadCreator" shoesCreatorClass [] []

/-- factory_method never touches the receiver. -/
theorem factory_method_snd (c : CreatorObj) : (c.factory_method).2 = c := by
  cases c with
  | mk t a => cases t <;> rfl

/-- some_operation never touches the receiver. -/
theorem some_operation_snd (c : CreatorObj) : (c.some_operation).2 = c := by
  cases c with
  | mk t a => cases t <;> rfl

/-- C1: some_operation on freshly constructed concrete creators returns
the fixed string of the respective variant. -/
theorem some_operation_fresh_values :
    (SneakersCreator.new.some_operation).1 =
      "ShoesCreator works with: Sneakers shoes!" ∧
    (CrocksCreator.new.some_operation).1 =
      "ShoesCreator works with: Crocks shoes!" := by
  exact ⟨rfl, rfl⟩

/-- C2: on every creator instance, some_operation returns exactly the
prefix literal concatenated with the result of operation on the product
obtained from that instance's own factory_method, and has no other
effect: the receiver comes back unchanged. -/
theorem some_operation_template :
    ∀ c : CreatorObj,
      c.some_operation =
        ("ShoesCreator works with: " ++ ((c.factory_method).1.operation).1, c) := by
  intro c
  cases c with
  | mk t a => cases t <;> rfl

/-- C3: operation on each concrete product takes no input beyond the
receiver, leaves the receiver unchanged, and returns its fixed non-empty
literal on every call, whatever the instance dictionary holds. -/
theorem operation_pure_and_fixed :
    (∀ s : ShoesObj, (s.operation).2 = s ∧ (s.operation).1 ≠ "") ∧
    (∀ a, ((ShoesObj.mk ShoesTag.sneakers a).operation).1 = "Sneakers shoes!") ∧
    (∀ a, ((ShoesObj.mk ShoesTag.crocks a).operation).1 = "Crocks shoes!") := by
  refine ⟨?_, fun a => rfl, fun a => rfl⟩
  intro s
  cases s with
  | mk t a =>
    cases t
    · exact ⟨rfl, (by decide : ¬(("Sneakers shoes!" : String) = ""))⟩
    · exact ⟨rfl, (by decide : ¬(("Crocks shoes!" : String) = ""))⟩

/-- C4: factory_method on any creator instance returns a freshly
constructed product (empty instance dictionary) without mutating the
creator, two creator instances of the same concrete variant yield
products of the same concrete variant with equal operation output, and
that output is a non-empty string, so the product satisfies the Product
capability. -/
theorem factory_method_deterministic :
    (∀ c : CreatorObj,
        (c.factory_method).1.attrs = [] ∧ (c.factory_method).2 = c) ∧
    (∀ c1 c2 : CreatorObj, c1.tag = c2.tag →
        (c1.factory_method).1.tag = (c2.factory_method).1.tag ∧
        ((c1.factory_method).1.operation).1 = ((c2.factory_method).1.operation).1) ∧
    (∀ c : CreatorObj, ((c.factory_method).1.operation).1 ≠ "") := by
  refine ⟨?_, ?_, ?_⟩
  · intro c
    cases c with
    | mk t a => cases t <;> exact ⟨rfl, rfl⟩
  · intro c1 c2 h
    cases c1 with
    | mk t1 a1 =>
      cases c2 with
      | mk t2 a2 =>
        cases t1 <;> cases t2 <;> simp_all <;> exact ⟨rfl, rfl⟩
  · intro c
    cases c with
    | mk t a =>
      cases t
      · exact (by decide : ¬(("Sneakers shoes!" : String) = ""))
      · exact (by decide : ¬(("Crocks shoes!" : String) = ""))

/-- C5: the client routine writes exactly the string returned by
some_operation on its argument followed by a single line break to
standard output, returns Unit, and in particular on a fresh
SneakersCreator writes exactly the Sneakers message and a line break. -/
theorem client_side_method_io :
    (∀ (c : CreatorObj) (out : String),
        client_side_method c out = ((), out ++ (c.some_operation).1 ++ "\n")) ∧
    (client_side_method SneakersCreator.new "").2 =
      "ShoesCreator works with: Sneakers shoes!\n" := by
  exact ⟨fun c out => rfl, by decide⟩

/-- C6: the main block writes exactly four non-blank lines plus one
blank separator line, in order: the SneakersCreator header, the Sneakers
message, the blank separator, the CrocksCreator header, the Crocks
message. -/
theorem main_transcript :
    stdoutLines mainStdout =
      ["SneakersCreator:", "ShoesCreator works with: Sneakers shoes!", "",
       "CrocksCreator:", "ShoesCreator works with: Crocks shoes!"] ∧
    ((stdoutLines mainStdout).filter (fun l => l ≠ "")).length = 4 ∧
    ((stdoutLines mainStdout).filter (fun l => l = "")).length = 1 := by
  refine ⟨?_, ?_, ?_⟩ <;> decide

/-- C7 counterexample: a concrete creator subclass whose body fails to
implement factory_method is accepted at class definition time; the
abstract-base mechanism raises TypeError only when the class is
instantiated. -/
theorem incomplete_subclass_defines_fine :
    defineClass "BadCreator" shoesCreatorClass [] [] = Except.ok badCreatorClass ∧
    badCreatorClass.abstractMethods = ["factory_method"] ∧
    instantiate badCreatorClass = Except.error "TypeError" := by
  exact ⟨rfl, by decide, rfl⟩

/-- C7 amended: class definition always succeeds, even for a variant
missing a required abstract operation; the abstract-base mechanism
rejects such a class with TypeError at instantiation time, before any
method call, and every correctly defined variant of the module
instantiates without a failure path. -/
theorem abstract_enforcement_at_instantiation :
    (∀ (n : String) (b : PyClass) (da impl : List String),
        defineClass n b da impl = Except.ok (mkClass n b da impl)) ∧
    (∀ c : PyClass, c.abstractMethods ≠ [] →
        instantiate c = Except.error "TypeError") ∧
    (instantiate sneakersCreatorClass).isOk = true ∧
    (instantiate crocksCreatorClass).isOk = true ∧
    (instantiate sneakersClass).isOk = true ∧
    (instantiate crocksClass).isOk = true := by
  refine ⟨fun n b da impl => rfl, ?_, rfl, rfl, rfl, rfl⟩
  intro c h
  cases c with
  | mk n ams =>
    cases ams with
    | nil => exact absurd rfl h
    | cons a as => rfl

/-- C8: instantiating the abstract base classes ShoesCreator or Shoes
directly raises TypeError, and among all classes the module defines only
the four concrete subclasses can be instantiated, so every receiver of
some_operation or operation is an instance of a concrete subclass. -/
theorem abstract_bases_not_instantiable :
    instantiate shoesCreatorClass = Except.error "TypeError" ∧
    instantiate shoesClass = Except.error "TypeError" ∧
    ∀ c ∈ moduleClasses, (instantiate c).isOk = true →
      c ∈ [sneakersCreatorClass, crocksCreatorClass, sneakersClass, crocksClass] := by
  refine ⟨rfl, rfl, ?_⟩
  decide

/-- C9: the two concrete creator variants produce distinct
some_operation outputs, whatever their instance dictionaries hold, so
the variant is recoverable from the returned string. -/
theorem variant_recoverable_from_output :
    (∀ a b, ((CreatorObj.mk CreatorTag.sneakersCreator a).some_operation).1 ≠
        ((CreatorObj.mk CreatorTag.crocksCreator b).some_operation).1) ∧
    (SneakersCreator.new.some_operation).1 ≠ (CrocksCreator.new.some_operation).1 := by
  exact ⟨fun a b =>
    (by decide :
      ¬(("ShoesCreator works with: " ++ "Sneakers shoes!" : String) =
        "ShoesCreator works with: " ++ "Crocks shoes!")), by decide⟩

/-- C10: neither some_operation nor the factory_method it invokes
creates or mutates any attribute of the creator instance, and any number
of repeated some_operation calls on one and the same instance return the
same string every time while leaving the instance unchanged. -/
theorem some_operation_frame :
    (∀ c : CreatorObj, (c.factory_method).2 = c ∧ (c.some_operation).2 = c) ∧
    (∀ (c : CreatorObj) (n : Nat),
        (repeatCalls n c).1 = List.replicate n (c.some_operation).1 ∧
        (repeatCalls n c).2 = c) := by
  refine ⟨fun c => ⟨factory_method_snd c, some_operation_snd c⟩, ?_⟩
  intro c n
  induction n with
  | zero => exact ⟨rfl, rfl⟩
  | succ k ih =>
    have h2 : (c.some_operation).2 = c := some_operation_snd c
    constructor
    · show (c.some_operation).1 :: (repeatCalls k (c.some_operation).2).1 = _
      rw [h2, ih.1, List.replicate_succ]
    · show (repeatCalls k (c.some_operation).2).2 = c
      rw [h2, ih.2]

end AbstractFactory
